import Mathlib

/-! Verification of the keyword-compilation and validation core of a JSON
Schema engine: the `const`, `type`, `maxProperties` and `multipleOf` keyword
compilers and validators, and the draft-4 legacy variant of `type`, shallowly
embedded from the Rust sources (`keywords/const_.rs`, `keywords/type_.rs`,
`keywords/max_properties.rs`, `keywords/multiple_of.rs`,
`keywords/legacy/type_draft_4.rs`).

IEEE f64 arithmetic is modelled over exact rationals extended with the two
infinities and NaN: a finite value carries the exact rational it denotes, and
every operation the validators perform (subtraction, absolute value,
division, the `%` remainder, `fract`, the comparisons) is exact on finite
operands and propagates NaN and infinity as IEEE 754 prescribes for the
operand shapes the code produces (division by zero, remainder by zero,
remainder of an infinite dividend). Rounding of finite-by-finite arithmetic
is not modelled. Where a concrete decimal literal of the specification is
used as an instance, the exact dyadic rational value of the f64 the literal
parses to is spelled out at the theorem. -/

namespace JsonSchema

/-- Machine epsilon of IEEE binary64 (`std::f64::EPSILON`, two to the power
minus fifty-two), as an exact rational; the shared tolerance of the `const`
number test and the `multipleOf` remainder test. -/
def EPSILON : ℚ := 1 / 2 ^ 52

/-- Truncation toward zero on rationals: the rounding used by `f64::trunc`,
by `f64::fract` and by the f64 remainder operator. -/
def ratTrunc (q : ℚ) : ℤ := if 0 ≤ q then ⌊q⌋ else ⌈q⌉

/-- Model of an IEEE f64 value as the validators use it: a finite value
carries the exact rational it denotes; the infinities and NaN are explicit so
that division and remainder involving a zero divisor behave as in the
source. -/
inductive F where
  | fin (q : ℚ)
  | pinf
  | ninf
  | nan

namespace F

/-- IEEE subtraction, exact on finite operands; the code only ever subtracts
finite values. -/
def sub : F → F → F
  | fin a, fin b => fin (a - b)
  | _, _ => nan

/-- IEEE absolute value. -/
def abs : F → F
  | fin a => fin |a|
  | pinf => pinf
  | ninf => pinf
  | nan => nan

/-- IEEE division for the operand shapes the validators produce: exact on
finite operands, a nonzero finite value divided by zero gives a signed
infinity, zero divided by zero gives NaN. The code never divides a non-finite
value. -/
def div : F → F → F
  | fin a, fin b =>
    if b = 0 then (if a = 0 then nan else if 0 < a then pinf else ninf)
    else fin (a / b)
  | _, _ => nan

/-- The f64 remainder operator (Rust `%` on floats): the dividend minus the
divisor times the truncated quotient, exact on finite operands; NaN when the
divisor is zero or the dividend is not finite. -/
def fmod : F → F → F
  | fin a, fin b => if b = 0 then nan else fin (a - b * (ratTrunc (a / b) : ℚ))
  | _, _ => nan

/-- Rust `f64::fract`: the value minus its truncation toward zero. -/
def fract : F → F
  | fin a => fin (a - (ratTrunc a : ℚ))
  | _ => nan

/-- IEEE less-than: false whenever an operand is NaN. -/
def lt : F → F → Bool
  | fin a, fin b => decide (a < b)
  | fin _, pinf => true
  | ninf, fin _ => true
  | ninf, pinf => true
  | _, _ => false

/-- IEEE equality: false whenever an operand is NaN. -/
def beq : F → F → Bool
  | fin a, fin b => decide (a = b)
  | pinf, pinf => true
  | ninf, ninf => true
  | _, _ => false

end F

/-- Modelled from the spec: the JSON document model is an external
collaborator of this core (spec section 1 and section 6; the sources use the
external `serde_json` crate, which is not among the provided files). A parsed
JSON number is stored either in a native unsigned integer representation
(`posInt`), in a native signed integer representation (`negInt`, the negative
integers), or as an f64 (`float`); spec section 4.3 relies on the
representation being observable (`is_u64`, `is_i64`: a native integer
representation has no fractional component ever stored) while `as_f64` yields
the numeric value. -/
inductive Number where
  | posInt (n : ℕ)
  | negInt (z : ℤ)
  | float (q : ℚ)

/-- True exactly for the unsigned native integer representation. -/
def Number.is_u64 : Number → Bool
  | posInt _ => true
  | _ => false

/-- True for numbers representable in the signed native integer range: every
negative native integer, and an unsigned one that fits below two to the
sixty-three. -/
def Number.is_i64 : Number → Bool
  | posInt n => decide (n ≤ 2 ^ 63 - 1)
  | negInt _ => true
  | float _ => false

/-- The numeric value of any representation, as the (modelled) f64. -/
def Number.as_f64 : Number → F
  | posInt n => .fin n
  | negInt z => .fin z
  | float q => .fin q

/-- The unsigned integer behind the number, when that is its representation. -/
def Number.as_u64 : Number → Option ℕ
  | posInt n => some n
  | _ => none

/-- Modelled from the spec: the parsed, tree-shaped JSON value the core
operates on (spec section 1 and section 6). Objects are duplicate-free
key-to-value maps (spec section 4.2), modelled as association lists. -/
inductive Json where
  | null
  | bool (b : Bool)
  | num (n : Number)
  | str (s : String)
  | arr (items : List Json)
  | obj (entries : List (String × Json))

/-- Kind test used by the null validators. -/
def Json.is_null : Json → Bool
  | .null => true
  | _ => false

/-- Kind test used by the boolean type validator. -/
def Json.is_boolean : Json → Bool
  | .bool _ => true
  | _ => false

/-- Kind test used by the string type validator. -/
def Json.is_string : Json → Bool
  | .str _ => true
  | _ => false

/-- Kind test used by the array type validator. -/
def Json.is_array : Json → Bool
  | .arr _ => true
  | _ => false

/-- Kind test used by the object type validator. -/
def Json.is_object : Json → Bool
  | .obj _ => true
  | _ => false

/-- Kind test used by the number type validator. -/
def Json.is_number : Json → Bool
  | .num _ => true
  | _ => false

/-- The unsigned integer behind a numeric value, when that is its
representation; `maxProperties` compilation goes through this. -/
def Json.as_u64 : Json → Option ℕ
  | .num n => n.as_u64
  | _ => none

/-- Modelled from the spec: the closed enumeration of the seven JSON Schema
type names (spec section 3; `primitive_type.rs` is not among the provided
files). -/
inductive PrimitiveType where
  | array
  | boolean
  | integer
  | null
  | number
  | object
  | string

/-- Modelled from the spec (section 4.1): maps exactly the seven JSON Schema
type names to the enumeration and fails for any other token. -/
def PrimitiveType.tryFrom : String → Option PrimitiveType
  | "array" => some .array
  | "boolean" => some .boolean
  | "integer" => some .integer
  | "null" => some .null
  | "number" => some .number
  | "object" => some .object
  | "string" => some .string
  | _ => none

/-- Bit position of each type in the bitmask. -/
def PrimitiveType.toIndex : PrimitiveType → ℕ
  | .array => 0
  | .boolean => 1
  | .integer => 2
  | .null => 3
  | .number => 4
  | .object => 5
  | .string => 6

/-- Modelled from the spec (section 3): a fixed-width bitset over
`PrimitiveType` supporting union and membership test; built once at compile
time from a type array, immutable thereafter. -/
structure PrimitiveTypesBitMap where
  bits : ℕ

/-- The empty bitmask. -/
def PrimitiveTypesBitMap.new : PrimitiveTypesBitMap := ⟨0⟩

/-- Union with one type (the source's bitwise-or-assign). -/
def PrimitiveTypesBitMap.or (m : PrimitiveTypesBitMap) (t : PrimitiveType) :
    PrimitiveTypesBitMap :=
  ⟨m.bits ||| 2 ^ t.toIndex⟩

/-- Membership: true exactly when the bit for the type is set (spec section
4.1: unaffected by the Integer and Number overlap, which callers handle). -/
def PrimitiveTypesBitMap.contains_type (m : PrimitiveTypesBitMap)
    (t : PrimitiveType) : Bool :=
  m.bits.testBit t.toIndex

namespace helpers

mutual

/-- Modelled from the spec: structural deep equality (`helpers.rs` is not
among the provided files). Spec section 4.2 and testable property 1:
element-wise for arrays, key-set-and-value equality for objects with key
order irrelevant, exact equality for booleans, null and strings, and the
EPSILON tolerance on the f64 values for numbers. -/
def equal : Json → Json → Bool
  | .null, .null => true
  | .bool a, .bool b => a == b
  | .str a, .str b => a == b
  | .num a, .num b => F.lt (F.abs (F.sub a.as_f64 b.as_f64)) (F.fin EPSILON)
  | .arr a, .arr b => equal_arrays a b
  | .obj a, .obj b => a.length == b.length && equal_entries a b
  | _, _ => false

/-- Modelled from the spec: element-wise deep equality of two arrays (equal
lengths included). -/
def equal_arrays : List Json → List Json → Bool
  | [], [] => true
  | x :: xs, y :: ys => equal x y && equal_arrays xs ys
  | _, _ => false

/-- Modelled from the spec: the key is present on the right with a
deep-equal value. -/
def entry_matches : String → Json → List (String × Json) → Bool
  | _, _, [] => false
  | k, v, (k2, v2) :: rest => if k == k2 then equal v v2 else entry_matches k v rest

/-- Modelled from the spec: every left entry has a matching right entry. -/
def equal_entries : List (String × Json) → List (String × Json) → Bool
  | [], _ => true
  | (k, v) :: rest, right => entry_matches k v right && equal_entries rest right

end

/-- Modelled from the spec: key-set-and-value equality of two duplicate-free
objects, key order irrelevant. -/
def equal_objects (left right : List (String × Json)) : Bool :=
  left.length == right.length && equal_entries left right

end helpers

/-- Current-draft integer detection (`type_.rs`): a native integer
representation, or an f64 whose fractional part is exactly zero. -/
def type_.is_integer (num : Number) : Bool :=
  num.is_u64 || num.is_i64 || F.beq (F.fract num.as_f64) (F.fin 0)

/-- Draft-4 integer detection (`legacy/type_draft_4.rs`): only a native
integer representation counts. -/
def type_draft_4.is_integer (num : Number) : Bool :=
  num.is_u64 || num.is_i64

/-- One variant per keyword, mirroring the `ValidationError` constructors the
validate methods call (the error-model module itself is outside the provided
files; each variant carries exactly what the call site passes: the captured
path, the offending instance and the expected constraint). -/
inductive ValidationError where
  | constant_array (path : List String) (inst : Json) (expected : List Json)
  | constant_boolean (path : List String) (inst : Json) (expected : Bool)
  | constant_null (path : List String) (inst : Json)
  | constant_number (path : List String) (inst : Json) (expected : Number)
  | constant_object (path : List String) (inst : Json)
      (expected : List (String × Json))
  | constant_string (path : List String) (inst : Json) (expected : String)
  | single_type_error (path : List String) (inst : Json)
      (expected : PrimitiveType)
  | multiple_type_error (path : List String) (inst : Json)
      (expected : PrimitiveTypesBitMap)
  | max_properties (path : List String) (inst : Json) (limit : ℕ)
  | multiple_of (path : List String) (inst : Json) (divisor : F)

/-- The empty lazy error sequence of the sources. -/
def no_error : List ValidationError := []

/-- The one-element lazy error sequence of the sources. -/
def error (e : ValidationError) : List ValidationError := [e]

/-- One concrete validator variant per keyword-and-type combination; each
constructor mirrors the Rust struct of the same name (the two `Draft4`
constructors are the legacy module's own `MultipleTypesValidator` and
`IntegerTypeValidator`) and holds the path captured at compile time together
with the parsed constraint. -/
inductive Validator where
  | ConstArrayValidator (value : List Json) (path : List String)
  | ConstBooleanValidator (value : Bool) (path : List String)
  | ConstNullValidator (path : List String)
  | ConstNumberValidator (original_value : Number) (value : F)
      (path : List String)
  | ConstObjectValidator (value : List (String × Json)) (path : List String)
  | ConstStringValidator (value : String) (path : List String)
  | MultipleTypesValidator (types : PrimitiveTypesBitMap) (path : List String)
  | NullTypeValidator (path : List String)
  | BooleanTypeValidator (path : List String)
  | StringTypeValidator (path : List String)
  | ArrayTypeValidator (path : List String)
  | ObjectTypeValidator (path : List String)
  | NumberTypeValidator (path : List String)
  | IntegerTypeValidator (path : List String)
  | Draft4MultipleTypesValidator (types : PrimitiveTypesBitMap)
      (path : List String)
  | Draft4IntegerTypeValidator (path : List String)
  | MaxPropertiesValidator (limit : ℕ) (path : List String)
  | MultipleOfIntegerValidator (multiple_of : F) (path : List String)
  | MultipleOfFloatValidator (multiple_of : F) (path : List String)

/-- The fast boolean path of the validator contract: each branch transcribes
the corresponding Rust `is_valid` (the unused `JSONSchema` argument of the
trait is dropped). -/
def Validator.is_valid : Validator → Json → Bool
  | ConstArrayValidator value _, .arr instance_value =>
    helpers.equal_arrays value instance_value
  | ConstArrayValidator _ _, _ => false
  | ConstBooleanValidator value _, .bool instance_value =>
    value == instance_value
  | ConstBooleanValidator _ _, _ => false
  | ConstNullValidator _, inst => inst.is_null
  | ConstNumberValidator _ value _, .num item =>
    F.lt (F.abs (F.sub value item.as_f64)) (F.fin EPSILON)
  | ConstNumberValidator _ _ _, _ => false
  | ConstObjectValidator value _, .obj item => helpers.equal_objects value item
  | ConstObjectValidator _ _, _ => false
  | ConstStringValidator value _, .str item => value == item
  | ConstStringValidator _ _, _ => false
  | MultipleTypesValidator types _, inst =>
    match inst with
    | .arr _ => types.contains_type .array
    | .bool _ => types.contains_type .boolean
    | .null => types.contains_type .null
    | .num num =>
      types.contains_type .number
        || (types.contains_type .integer && type_.is_integer num)
    | .obj _ => types.contains_type .object
    | .str _ => types.contains_type .string
  | NullTypeValidator _, inst => inst.is_null
  | BooleanTypeValidator _, inst => inst.is_boolean
  | StringTypeValidator _, inst => inst.is_string
  | ArrayTypeValidator _, inst => inst.is_array
  | ObjectTypeValidator _, inst => inst.is_object
  | NumberTypeValidator _, inst => inst.is_number
  | IntegerTypeValidator _, .num num => type_.is_integer num
  | IntegerTypeValidator _, _ => false
  | Draft4MultipleTypesValidator types _, inst =>
    match inst with
    | .arr _ => types.contains_type .array
    | .bool _ => types.contains_type .boolean
    | .null => types.contains_type .null
    | .num num =>
      types.contains_type .number
        || (types.contains_type .integer && type_draft_4.is_integer num)
    | .obj _ => types.contains_type .object
    | .str _ => types.contains_type .string
  | Draft4IntegerTypeValidator _, .num num => type_draft_4.is_integer num
  | Draft4IntegerTypeValidator _, _ => false
  | MaxPropertiesValidator limit _, inst =>
    match inst with
    | .obj item => !decide (item.length > limit)
    | _ => true
  | MultipleOfIntegerValidator multiple_of _, inst =>
    match inst with
    | .num item0 =>
      let item := item0.as_f64
      if F.beq (F.fract item) (F.fin 0) then
        F.beq (F.fmod item multiple_of) (F.fin 0)
      else
        let remainder := F.fmod (F.div item multiple_of) (F.fin 1)
        F.lt remainder (F.fin EPSILON)
          && F.lt remainder (F.sub (F.fin 1) (F.fin EPSILON))
    | _ => true
  | MultipleOfFloatValidator multiple_of _, inst =>
    match inst with
    | .num item0 =>
      let remainder := F.fmod (F.div item0.as_f64 multiple_of) (F.fin 1)
      F.lt remainder (F.fin EPSILON)
        && F.lt remainder (F.sub (F.fin 1) (F.fin EPSILON))
    | _ => true

/-- The diagnostic path of the validator contract: each branch transcribes
the corresponding Rust `validate`. The const and type validators delegate to
`is_valid`; `MaxPropertiesValidator` and the two `multipleOf` validators
re-state their condition inline, exactly as the source does. -/
def Validator.validate : Validator → Json → List ValidationError
  | v@(ConstArrayValidator value path), inst =>
    if v.is_valid inst then no_error else error (.constant_array path inst value)
  | v@(ConstBooleanValidator value path), inst =>
    if v.is_valid inst then no_error
    else error (.constant_boolean path inst value)
  | v@(ConstNullValidator path), inst =>
    if v.is_valid inst then no_error else error (.constant_null path inst)
  | v@(ConstNumberValidator original_value _ path), inst =>
    if v.is_valid inst then no_error
    else error (.constant_number path inst original_value)
  | v@(ConstObjectValidator value path), inst =>
    if v.is_valid inst then no_error
    else error (.constant_object path inst value)
  | v@(ConstStringValidator value path), inst =>
    if v.is_valid inst then no_error
    else error (.constant_string path inst value)
  | v@(MultipleTypesValidator types path), inst =>
    if v.is_valid inst then no_error
    else error (.multiple_type_error path inst types)
  | v@(NullTypeValidator path), inst =>
    if v.is_valid inst then no_error
    else error (.single_type_error path inst .null)
  | v@(BooleanTypeValidator path), inst =>
    if v.is_valid inst then no_error
    else error (.single_type_error path inst .boolean)
  | v@(StringTypeValidator path), inst =>
    if v.is_valid inst then no_error
    else error (.single_type_error path inst .string)
  | v@(ArrayTypeValidator path), inst =>
    if v.is_valid inst then no_error
    else error (.single_type_error path inst .array)
  | v@(ObjectTypeValidator path), inst =>
    if v.is_valid inst then no_error
    else error (.single_type_error path inst .object)
  | v@(NumberTypeValidator path), inst =>
    if v.is_valid inst then no_error
    else error (.single_type_error path inst .number)
  | v@(IntegerTypeValidator path), inst =>
    if v.is_valid inst then no_error
    else error (.single_type_error path inst .integer)
  | v@(Draft4MultipleTypesValidator types path), inst =>
    if v.is_valid inst then no_error
    else error (.multiple_type_error path inst types)
  | v@(Draft4IntegerTypeValidator path), inst =>
    if v.is_valid inst then no_error
    else error (.single_type_error path inst .integer)
  | MaxPropertiesValidator limit path, inst =>
    match inst with
    | .obj item =>
      if item.length > limit then
        error (.max_properties path (.obj item) limit)
      else no_error
    | _ => no_error
  | MultipleOfIntegerValidator multiple_of path, inst =>
    match inst with
    | .num item0 =>
      let item := item0.as_f64
      let is_multiple :=
        if F.beq (F.fract item) (F.fin 0) then
          F.beq (F.fmod item multiple_of) (F.fin 0)
        else
          let remainder := F.fmod (F.div item multiple_of) (F.fin 1)
          F.lt remainder (F.fin EPSILON)
            && F.lt remainder (F.sub (F.fin 1) (F.fin EPSILON))
      if !is_multiple then
        error (.multiple_of path (.num item0) multiple_of)
      else no_error
    | _ => no_error
  | MultipleOfFloatValidator multiple_of path, inst =>
    match inst with
    | .num item0 =>
      let remainder := F.fmod (F.div item0.as_f64 multiple_of) (F.fin 1)
      if !(F.lt remainder (F.fin EPSILON)
          && F.lt remainder (F.sub (F.fin 1) (F.fin EPSILON))) then
        error (.multiple_of path (.num item0) multiple_of)
      else no_error
    | _ => no_error

/-- Compilation failure: the schema itself is structurally invalid for a
keyword. -/
inductive CompilationError where
  | SchemaError

/-- A compiled validator or a compilation failure. -/
abbrev CompilationResult := Except CompilationError Validator

/-- The `const` keyword compiler (`const_.rs`): chooses the validator variant
by the shape of the literal; it cannot fail. The number variant stores both
the original literal and its f64 value. -/
def const_.compile (schema : Json) (curr_path : List String) :
    Option CompilationResult :=
  match schema with
  | .arr items => some (.ok (.ConstArrayValidator items curr_path))
  | .bool item => some (.ok (.ConstBooleanValidator item curr_path))
  | .null => some (.ok (.ConstNullValidator curr_path))
  | .num item => some (.ok (.ConstNumberValidator item item.as_f64 curr_path))
  | .obj map => some (.ok (.ConstObjectValidator map curr_path))
  | .str string => some (.ok (.ConstStringValidator string curr_path))

/-- The loop of `MultipleTypesValidator::compile` (identical in `type_.rs`
and in the legacy module): fold the declared names into the bitmask, failing
on a non-string entry or an unknown name. -/
def MultipleTypesValidator.compile_types (items : List Json)
    (types : PrimitiveTypesBitMap) :
    Except CompilationError PrimitiveTypesBitMap :=
  match items with
  | [] => .ok types
  | item :: rest =>
    match item with
    | .str string =>
      match PrimitiveType.tryFrom string with
      | some primitive_type => compile_types rest (types.or primitive_type)
      | none => .error .SchemaError
    | _ => .error .SchemaError

/-- `MultipleTypesValidator::compile` of `type_.rs`. -/
def MultipleTypesValidator.compile (items : List Json) (path : List String) :
    CompilationResult :=
  match MultipleTypesValidator.compile_types items PrimitiveTypesBitMap.new with
  | .ok types => .ok (.MultipleTypesValidator types path)
  | .error e => .error e

/-- `compile_single_type` of `type_.rs`: one specialized validator per known
type name. -/
def type_.compile_single_type (item : String) (path : List String) :
    Option CompilationResult :=
  match PrimitiveType.tryFrom item with
  | some .array => some (.ok (.ArrayTypeValidator path))
  | some .boolean => some (.ok (.BooleanTypeValidator path))
  | some .integer => some (.ok (.IntegerTypeValidator path))
  | some .null => some (.ok (.NullTypeValidator path))
  | some .number => some (.ok (.NumberTypeValidator path))
  | some .object => some (.ok (.ObjectTypeValidator path))
  | some .string => some (.ok (.StringTypeValidator path))
  | none => some (.error .SchemaError)

/-- The `type` keyword compiler of `type_.rs`: a string compiles the single
type, a one-element array collapses to the single-type path, a longer array
compiles the bitmask validator, anything else is a schema error. -/
def type_.compile (schema : Json) (curr_path : List String) :
    Option CompilationResult :=
  match schema with
  | .str item => type_.compile_single_type item curr_path
  | .arr items =>
    if items.length = 1 then
      match items.head? with
      | some (.str item) => type_.compile_single_type item curr_path
      | _ => some (.error .SchemaError)
    else some (MultipleTypesValidator.compile items curr_path)
  | _ => some (.error .SchemaError)

/-- `MultipleTypesValidator::compile` of the legacy module: the same loop,
building the legacy bitmask validator. -/
def Draft4MultipleTypesValidator.compile (items : List Json)
    (path : List String) : CompilationResult :=
  match MultipleTypesValidator.compile_types items PrimitiveTypesBitMap.new with
  | .ok types => .ok (.Draft4MultipleTypesValidator types path)
  | .error e => .error e

/-- `compile_single_type` of `legacy/type_draft_4.rs`: identical to the
current one except that `integer` compiles the legacy integer validator. -/
def type_draft_4.compile_single_type (item : String) (path : List String) :
    Option CompilationResult :=
  match PrimitiveType.tryFrom item with
  | some .array => some (.ok (.ArrayTypeValidator path))
  | some .boolean => some (.ok (.BooleanTypeValidator path))
  | some .integer => some (.ok (.Draft4IntegerTypeValidator path))
  | some .null => some (.ok (.NullTypeValidator path))
  | some .number => some (.ok (.NumberTypeValidator path))
  | some .object => some (.ok (.ObjectTypeValidator path))
  | some .string => some (.ok (.StringTypeValidator path))
  | none => some (.error .SchemaError)

/-- The legacy `type` keyword compiler of `legacy/type_draft_4.rs`. -/
def type_draft_4.compile (schema : Json) (curr_path : List String) :
    Option CompilationResult :=
  match schema with
  | .str item => type_draft_4.compile_single_type item curr_path
  | .arr items =>
    if items.length = 1 then
      match items.head? with
      | some (.str item) => type_draft_4.compile_single_type item curr_path
      | _ => some (.error .SchemaError)
    else some (Draft4MultipleTypesValidator.compile items curr_path)
  | _ => some (.error .SchemaError)

/-- `MaxPropertiesValidator::compile`: the schema value must be an unsigned
native integer. -/
def MaxPropertiesValidator.compile (schema : Json) (path : List String) :
    CompilationResult :=
  match schema.as_u64 with
  | some limit => .ok (.MaxPropertiesValidator limit path)
  | none => .error .SchemaError

/-- The `maxProperties` keyword compiler of `max_properties.rs`. -/
def max_properties.compile (schema : Json) (curr_path : List String) :
    Option CompilationResult :=
  some (MaxPropertiesValidator.compile schema curr_path)

/-- The `multipleOf` keyword compiler of `multiple_of.rs`: a number whose
fractional part is zero compiles the integer-divisor variant, any other
number the float-divisor variant, anything else is a schema error. -/
def multiple_of.compile (schema : Json) (curr_path : List String) :
    Option CompilationResult :=
  match schema with
  | .num multiple_of0 =>
    let multiple_of := multiple_of0.as_f64
    if F.beq (F.fract multiple_of) (F.fin 0) then
      some (.ok (.MultipleOfIntegerValidator multiple_of curr_path))
    else
      some (.ok (.MultipleOfFloatValidator multiple_of curr_path))
  | _ => some (.error .SchemaError)

/-- True when a keyword compiler returned a ready validator. -/
def compilationSucceeded : Option CompilationResult → Bool
  | some (.ok _) => true
  | _ => false

/-- True when the bitmask-building loop returned a bitmask. -/
def typesBuilt : Except CompilationError PrimitiveTypesBitMap → Bool
  | .ok _ => true
  | .error _ => false

/-- Written from the words of claim C2 (the spec rule, not the code): a
numeric instance passes when the Number bit is set, or when the Integer bit
is set and the value has no fractional part; an instance of any other kind
passes exactly when the bit of its own kind is set. -/
def specMultipleTypesVerdict (types : PrimitiveTypesBitMap) : Json → Bool
  | .null => types.contains_type .null
  | .bool _ => types.contains_type .boolean
  | .num n =>
    types.contains_type .number
      || (types.contains_type .integer
        && F.beq (F.fract n.as_f64) (F.fin 0))
  | .str _ => types.contains_type .string
  | .arr _ => types.contains_type .array
  | .obj _ => types.contains_type .object

/-- Written from the words of claim C3 (the spec rule, not the code): accept
a numeric instance exactly when the remainder of instance over divisor modulo
one is below EPSILON or above one minus EPSILON; accept every non-numeric
instance. -/
def specFloatMultipleAccepts (multiple_of : F) : Json → Bool
  | .num item0 =>
    let remainder := F.fmod (F.div item0.as_f64 multiple_of) (F.fin 1)
    F.lt remainder (F.fin EPSILON)
      || F.lt (F.sub (F.fin 1) (F.fin EPSILON)) remainder
  | _ => true

/-- A type-array entry that is a string naming one of the seven known
types. -/
def known_type_name : Json → Bool
  | .str s => (PrimitiveType.tryFrom s).isSome
  | _ => false

/-- The single-type validator `compile_single_type` of `type_.rs` produces
for each known type name (the body of its seven-armed match). -/
def type_.single_validator : PrimitiveType → List String → Validator
  | .array, path => .ArrayTypeValidator path
  | .boolean, path => .BooleanTypeValidator path
  | .integer, path => .IntegerTypeValidator path
  | .null, path => .NullTypeValidator path
  | .number, path => .NumberTypeValidator path
  | .object, path => .ObjectTypeValidator path
  | .string, path => .StringTypeValidator path

lemma ratTrunc_intCast (z : ℤ) : ratTrunc (z : ℚ) = z := by
  unfold ratTrunc
  split <;> simp

lemma ratTrunc_natCast (n : ℕ) : ratTrunc (n : ℚ) = n := by
  have h := ratTrunc_intCast (n : ℤ)
  simpa using h

lemma ratTrunc_eq_of_nonneg (q : ℚ) (z : ℤ) (h0 : (0 : ℚ) ≤ q)
    (h1 : (z : ℚ) ≤ q) (h2 : q < z + 1) : ratTrunc q = z := by
  unfold ratTrunc
  rw [if_pos h0, Int.floor_eq_iff]
  exact ⟨h1, h2⟩

lemma fract_fin_intCast (z : ℤ) : F.fract (F.fin (z : ℚ)) = F.fin 0 := by
  simp [F.fract, ratTrunc_intCast]

lemma fract_fin_natCast (n : ℕ) : F.fract (F.fin (n : ℚ)) = F.fin 0 := by
  have h := fract_fin_intCast (n : ℤ)
  simpa using h

lemma beq_fin (a b : ℚ) : F.beq (F.fin a) (F.fin b) = decide (a = b) := rfl

lemma lt_fin (a b : ℚ) : F.lt (F.fin a) (F.fin b) = decide (a < b) := rfl

lemma sub_fin (a b : ℚ) : F.sub (F.fin a) (F.fin b) = F.fin (a - b) := rfl

lemma fract_fin (q : ℚ) :
    F.fract (F.fin q) = F.fin (q - (ratTrunc q : ℚ)) := rfl

lemma div_fin (a b : ℚ) (hb : b ≠ 0) :
    F.div (F.fin a) (F.fin b) = F.fin (a / b) := by
  simp [F.div, hb]

lemma fmod_one_fin (a : ℚ) :
    F.fmod (F.fin a) (F.fin 1) = F.fin (a - (ratTrunc a : ℚ)) := by
  simp [F.fmod]

lemma fmod_zero_fin (a : ℚ) : F.fmod (F.fin a) (F.fin 0) = F.nan := by
  simp [F.fmod]

lemma div_zero_fin (a : ℚ) :
    F.div (F.fin a) (F.fin 0)
      = if a = 0 then F.nan else if 0 < a then F.pinf else F.ninf := by
  simp [F.div]

lemma beq_nan_left (x : F) : F.beq F.nan x = false := by cases x <;> rfl

lemma lt_nan_left (x : F) : F.lt F.nan x = false := by cases x <;> rfl

lemma fmod_pinf_left (y : F) : F.fmod F.pinf y = F.nan := by cases y <;> rfl

lemma fmod_ninf_left (y : F) : F.fmod F.ninf y = F.nan := by cases y <;> rfl

lemma fmod_nan_left (y : F) : F.fmod F.nan y = F.nan := by cases y <;> rfl

lemma is_integer_eq_fract_zero (num : Number) :
    type_.is_integer num = F.beq (F.fract num.as_f64) (F.fin 0) := by
  cases num with
  | posInt n =>
    simp [type_.is_integer, Number.is_u64, Number.as_f64, fract_fin_natCast,
      F.beq]
  | negInt z =>
    simp [type_.is_integer, Number.is_u64, Number.is_i64, Number.as_f64,
      fract_fin_intCast, F.beq]
  | float q =>
    simp [type_.is_integer, Number.is_u64, Number.is_i64, Number.as_f64]

lemma EPSILON_le_one_sub : EPSILON ≤ 1 - EPSILON := by norm_num [EPSILON]

lemma lt_eps_collapse (r : F) :
    (F.lt r (F.fin EPSILON) && F.lt r (F.sub (F.fin 1) (F.fin EPSILON)))
      = F.lt r (F.fin EPSILON) := by
  cases r with
  | fin a =>
    by_cases h : a < EPSILON
    · have h2 : a < 1 - EPSILON := lt_of_lt_of_le h EPSILON_le_one_sub
      simp [F.lt, F.sub, h, h2]
    · simp [F.lt, F.sub, h]
  | pinf => rfl
  | ninf => rfl
  | nan => rfl

lemma validate_eq (v : Validator) (inst : Json) :
    ∃ e, v.validate inst = if v.is_valid inst then [] else [e] := by
  cases v with
  | ConstArrayValidator value path => exact ⟨.constant_array path inst value, rfl⟩
  | ConstBooleanValidator value path =>
    exact ⟨.constant_boolean path inst value, rfl⟩
  | ConstNullValidator path => exact ⟨.constant_null path inst, rfl⟩
  | ConstNumberValidator original_value value path =>
    exact ⟨.constant_number path inst original_value, rfl⟩
  | ConstObjectValidator value path =>
    exact ⟨.constant_object path inst value, rfl⟩
  | ConstStringValidator value path =>
    exact ⟨.constant_string path inst value, rfl⟩
  | MultipleTypesValidator types path =>
    exact ⟨.multiple_type_error path inst types, rfl⟩
  | NullTypeValidator path => exact ⟨.single_type_error path inst .null, rfl⟩
  | BooleanTypeValidator path =>
    exact ⟨.single_type_error path inst .boolean, rfl⟩
  | StringTypeValidator path =>
    exact ⟨.single_type_error path inst .string, rfl⟩
  | ArrayTypeValidator path => exact ⟨.single_type_error path inst .array, rfl⟩
  | ObjectTypeValidator path =>
    exact ⟨.single_type_error path inst .object, rfl⟩
  | NumberTypeValidator path =>
    exact ⟨.single_type_error path inst .number, rfl⟩
  | IntegerTypeValidator path =>
    exact ⟨.single_type_error path inst .integer, rfl⟩
  | Draft4MultipleTypesValidator types path =>
    exact ⟨.multiple_type_error path inst types, rfl⟩
  | Draft4IntegerTypeValidator path =>
    exact ⟨.single_type_error path inst .integer, rfl⟩
  | MaxPropertiesValidator limit path =>
    refine ⟨.max_properties path inst limit, ?_⟩
    cases inst with
    | obj entries =>
      by_cases h : entries.length > limit <;>
        simp [Validator.validate, Validator.is_valid, h, no_error, error]
    | null => rfl
    | bool b => rfl
    | num n => rfl
    | str s => rfl
    | arr items => rfl
  | MultipleOfIntegerValidator multiple_of path =>
    refine ⟨.multiple_of path inst multiple_of, ?_⟩
    cases inst with
    | num item0 =>
      cases h : Validator.is_valid (.MultipleOfIntegerValidator multiple_of path)
          (.num item0) with
      | true =>
        simp only [Validator.is_valid] at h
        simp [Validator.validate, h, no_error]
      | false =>
        simp only [Validator.is_valid] at h
        simp [Validator.validate, h, error]
    | null => rfl
    | bool b => rfl
    | str s => rfl
    | arr items => rfl
    | obj entries => rfl
  | MultipleOfFloatValidator multiple_of path =>
    refine ⟨.multiple_of path inst multiple_of, ?_⟩
    cases inst with
    | num item0 =>
      cases h : Validator.is_valid (.MultipleOfFloatValidator multiple_of path)
          (.num item0) with
      | true =>
        simp only [Validator.is_valid] at h
        simp [Validator.validate, h, no_error]
      | false =>
        simp only [Validator.is_valid] at h
        simp [Validator.validate, h, error]
    | null => rfl
    | bool b => rfl
    | str s => rfl
    | arr items => rfl
    | obj entries => rfl

/-- C7: a compiled `MaxPropertiesValidator` with limit N accepts every
non-object instance regardless of N, and accepts an object exactly when its
property count is at most N; in particular the limit-2 validator accepts the
string instance, rejects the three-property object and accepts the
two-property object. -/
theorem maxProperties_verdict :
    (∀ (limit : ℕ) (path : List String) (inst : Json),
      (Validator.MaxPropertiesValidator limit path).is_valid inst
        = match inst with
          | .obj entries => decide (entries.length ≤ limit)
          | _ => true) ∧
    (∀ (limit : ℕ) (path : List String),
      (Validator.MaxPropertiesValidator limit path).is_valid
        (.str "a string") = true) ∧
    (Validator.MaxPropertiesValidator 2 []).is_valid
      (.obj [("a", .num (.posInt 1)), ("b", .num (.posInt 2)),
        ("c", .num (.posInt 3))]) = false ∧
    (Validator.MaxPropertiesValidator 2 []).is_valid
      (.obj [("a", .num (.posInt 1)), ("b", .num (.posInt 2))]) = true := by
  refine ⟨?_, ?_, ?_, ?_⟩
  · intro limit path inst
    cases inst <;> simp [Validator.is_valid, Nat.not_lt]
    case obj entries =>
      by_cases h : entries.length ≤ limit
      · simp [h, not_lt.mpr h]
      · simp [h, not_le.mp h]
  · intro limit path
    rfl
  · rfl
  · rfl

lemma contains_single (t u : PrimitiveType) :
    (PrimitiveTypesBitMap.new.or t).contains_type u
      = decide (t.toIndex = u.toIndex) := by
  cases t <;> cases u <;> rfl

/-- C9: for every compiled validator of this core and every instance, the
diagnostic path agrees with the fast path (the error sequence is empty
exactly when the instance is valid) and never yields more than one error per
call. -/
theorem validate_agrees_is_valid :
    ∀ (v : Validator) (inst : Json),
      (v.validate inst).length ≤ 1
        ∧ (v.validate inst).isEmpty = v.is_valid inst := by
  intro v inst
  obtain ⟨e, he⟩ := validate_eq v inst
  rw [he]
  cases h : v.is_valid inst <;> simp

/-- C5: integer detection diverges by draft: the legacy draft-4 integer type
validator accepts a number exactly when its underlying representation is a
native integer, independent of value, while the current one additionally
accepts a float-represented number whose fractional part is exactly zero;
the float-represented 5.0 separates the two, and the two compilers select
the two distinct validators. -/
theorem integer_detection_by_draft :
    (∀ (inst : Json) (path : List String),
      (Validator.Draft4IntegerTypeValidator path).is_valid inst
        = match inst with
          | .num num => num.is_u64 || num.is_i64
          | _ => false) ∧
    (∀ (inst : Json) (path : List String),
      (Validator.IntegerTypeValidator path).is_valid inst
        = match inst with
          | .num num =>
            num.is_u64 || num.is_i64
              || F.beq (F.fract num.as_f64) (F.fin 0)
          | _ => false) ∧
    (Validator.IntegerTypeValidator []).is_valid (.num (.float 5)) = true ∧
    (Validator.Draft4IntegerTypeValidator []).is_valid
      (.num (.float 5)) = false ∧
    type_.compile (.str "integer") []
      = some (.ok (.IntegerTypeValidator [])) ∧
    type_draft_4.compile (.str "integer") []
      = some (.ok (.Draft4IntegerTypeValidator [])) := by
  refine ⟨?_, ?_, ?_, rfl, rfl, rfl⟩
  · intro inst path
    cases inst <;> rfl
  · intro inst path
    cases inst <;> rfl
  · have h : F.fract (F.fin (5 : ℚ)) = F.fin 0 := by
      have h5 := fract_fin_natCast 5
      simpa using h5
    simp [Validator.is_valid, type_.is_integer, Number.is_u64, Number.is_i64,
      Number.as_f64, h, F.beq]

/-- C2: the bitmask validator accepts a numeric instance exactly when the
Number bit is set or the Integer bit is set and the value has no fractional
part, and any other instance exactly when the bit of its own kind is set;
compiled from the two-element array of the names number and integer, the
instances 5, 5.0 and 5.5 are all valid, the last only because Number is
declared. -/
theorem multiple_types_verdict :
    (∀ (types : PrimitiveTypesBitMap) (path : List String) (inst : Json),
      (Validator.MultipleTypesValidator types path).is_valid inst
        = specMultipleTypesVerdict types inst) ∧
    type_.compile (.arr [.str "number", .str "integer"]) []
      = some (.ok (.MultipleTypesValidator ⟨20⟩ [])) ∧
    (Validator.MultipleTypesValidator ⟨20⟩ []).is_valid
      (.num (.posInt 5)) = true ∧
    (Validator.MultipleTypesValidator ⟨20⟩ []).is_valid
      (.num (.float 5)) = true ∧
    (Validator.MultipleTypesValidator ⟨20⟩ []).is_valid
      (.num (.float (11 / 2))) = true ∧
    (Validator.MultipleTypesValidator (PrimitiveTypesBitMap.new.or .integer)
      []).is_valid (.num (.float (11 / 2))) = false := by
  refine ⟨?_, rfl, rfl, rfl, rfl, ?_⟩
  · intro types path inst
    cases inst <;>
      simp [Validator.is_valid, specMultipleTypesVerdict,
        is_integer_eq_fract_zero]
  · have ht : ratTrunc ((11 : ℚ) / 2) = 5 :=
      ratTrunc_eq_of_nonneg _ 5 (by norm_num) (by norm_num) (by norm_num)
    simp [Validator.is_valid, contains_single, PrimitiveType.toIndex,
      type_.is_integer, Number.is_u64, Number.is_i64, Number.as_f64,
      F.fract, F.beq, ht]
    norm_num

/-- C6: a declared-type array of length one collapses to the single-type
path (the compiler returns the very same result as for the bare string, for
every string), and each single-type validator gives, on every instance, the
same verdict as the bitmask validator holding exactly that one type. -/
theorem single_type_collapse :
    (∀ (s : String) (path : List String),
      type_.compile (.arr [.str s]) path = type_.compile (.str s) path) ∧
    (∀ (t : PrimitiveType) (path : List String) (inst : Json),
      (type_.single_validator t path).is_valid inst
        = (Validator.MultipleTypesValidator (PrimitiveTypesBitMap.new.or t)
            path).is_valid inst) ∧
    type_.compile (.arr [.str "string"]) []
      = some (.ok (.StringTypeValidator [])) ∧
    type_.compile (.str "string") []
      = some (.ok (.StringTypeValidator [])) := by
  refine ⟨?_, ?_, rfl, rfl⟩
  · intro s path
    rfl
  · intro t path inst
    cases t <;> cases inst <;>
      simp [type_.single_validator, Validator.is_valid, contains_single,
        PrimitiveType.toIndex, Json.is_null, Json.is_boolean, Json.is_string,
        Json.is_array, Json.is_object, Json.is_number]

/-- C1 (amended): for every literal and every instance, the compiled const
validator's verdict is exactly deep equality, which is epsilon-tolerant on
numbers; the number variant rejects every non-number instance; but for the
literal 1.0 the instance 1.0000000000000002 — whose f64 value is exactly
1 + 2^-52, at distance exactly EPSILON from 1.0 — is invalid, because the
comparison is strict; an instance strictly within EPSILON, such as the f64
1 + 2^-53, is valid, and 1.1 is invalid. -/
theorem const_verdict_deep_equal :
    (∀ (L : Json) (path : List String) (I : Json),
      (const_.compile L path).map (Except.map fun v => v.is_valid I)
        = some (.ok (helpers.equal L I))) ∧
    (∀ (original_value : Number) (value : F) (path : List String) (I : Json),
      (Validator.ConstNumberValidator original_value value path).is_valid I
        = match I with
          | .num item =>
            F.lt (F.abs (F.sub value item.as_f64)) (F.fin EPSILON)
          | _ => false) ∧
    const_.compile (.num (.float 1)) []
      = some (.ok (.ConstNumberValidator (.float 1) (F.fin 1) [])) ∧
    (Validator.ConstNumberValidator (.float 1) (F.fin 1) []).is_valid
      (.num (.float (1 + 1 / 2 ^ 52))) = false ∧
    (Validator.ConstNumberValidator (.float 1) (F.fin 1) []).is_valid
      (.num (.float (1 + 1 / 2 ^ 53))) = true ∧
    (Validator.ConstNumberValidator (.float 1) (F.fin 1) []).is_valid
      (.num (.float (11 / 10))) = false := by
  refine ⟨?_, ?_, rfl, ?_, ?_, ?_⟩
  · intro L path I
    cases L <;> cases I <;>
      simp [const_.compile, Except.map, Validator.is_valid, helpers.equal,
        helpers.equal_objects, Json.is_null]
  · intro original_value value path I
    cases I <;> rfl
  · simp only [Validator.is_valid, Number.as_f64, F.sub, F.abs, F.lt]
    rw [show (1 : ℚ) - (1 + 1 / 2 ^ 52) = -(1 / 2 ^ 52) by ring, abs_neg,
      abs_of_nonneg (by positivity : (0 : ℚ) ≤ 1 / 2 ^ 52)]
    simp [EPSILON]
  · simp only [Validator.is_valid, Number.as_f64, F.sub, F.abs, F.lt]
    rw [show (1 : ℚ) - (1 + 1 / 2 ^ 53) = -(1 / 2 ^ 53) by ring, abs_neg,
      abs_of_nonneg (by positivity : (0 : ℚ) ≤ 1 / 2 ^ 53)]
    norm_num [EPSILON]
  · simp only [Validator.is_valid, Number.as_f64, F.sub, F.abs, F.lt]
    rw [show (1 : ℚ) - 11 / 10 = -(1 / 10) by ring, abs_neg,
      abs_of_nonneg (by positivity : (0 : ℚ) ≤ 1 / 10)]
    norm_num [EPSILON]

/-- C1 counterexample: the claim asserts that with const literal 1.0 the
instance 1.0000000000000002 is valid; the f64 this decimal denotes is
exactly 1 + 2^-52, whose distance from 1.0 equals EPSILON exactly, and the
strict comparison makes the compiled validator reject it. -/
theorem const_eps_boundary_counterexample :
    const_.compile (.num (.float 1)) []
      = some (.ok (.ConstNumberValidator (.float 1) (F.fin 1) []))
    ∧ (Validator.ConstNumberValidator (.float 1) (F.fin 1) []).is_valid
        (.num (.float (1 + 1 / 2 ^ 52))) = false := by
  refine ⟨rfl, ?_⟩
  simp only [Validator.is_valid, Number.as_f64, F.sub, F.abs, F.lt]
  rw [show (1 : ℚ) - (1 + 1 / 2 ^ 52) = -(1 / 2 ^ 52) by ring, abs_neg,
    abs_of_nonneg (by positivity : (0 : ℚ) ≤ 1 / 2 ^ 52)]
  simp [EPSILON]

/-- C3 (amended): the float-divisor multipleOf validator accepts a numeric
instance exactly when the remainder (instance over divisor, modulo one) is
below EPSILON — the source's conjunction collapses to this, so a remainder
close to one is rejected, not accepted; non-numeric instances always pass;
divisor 0.01 selects this variant and accepts the instance 4.53 (whose
remainder is zero under the exact arithmetic of the model). -/
theorem multipleOf_float_verdict :
    (∀ (multiple_of : F) (path : List String) (inst : Json),
      (Validator.MultipleOfFloatValidator multiple_of path).is_valid inst
        = match inst with
          | .num item0 =>
            F.lt (F.fmod (F.div item0.as_f64 multiple_of) (F.fin 1))
              (F.fin EPSILON)
          | _ => true) ∧
    multiple_of.compile (.num (.float (1 / 100))) []
      = some (.ok (.MultipleOfFloatValidator (F.fin (1 / 100)) [])) ∧
    (Validator.MultipleOfFloatValidator (F.fin (1 / 100)) []).is_valid
      (.num (.float (453 / 100))) = true := by
  refine ⟨?_, ?_, ?_⟩
  · intro multiple_of path inst
    cases inst with
    | num item0 =>
      simpa [Validator.is_valid] using
        lt_eps_collapse (F.fmod (F.div item0.as_f64 multiple_of) (F.fin 1))
    | null => rfl
    | bool b => rfl
    | str s => rfl
    | arr items => rfl
    | obj entries => rfl
  · have h0 : ratTrunc ((1 : ℚ) / 100) = 0 :=
      ratTrunc_eq_of_nonneg _ 0 (by norm_num) (by norm_num) (by norm_num)
    have hcond : F.beq (F.fract (F.fin ((1 : ℚ) / 100))) (F.fin 0) = false := by
      rw [fract_fin, h0, beq_fin]
      norm_num
    simp only [multiple_of.compile, Number.as_f64, hcond, Bool.false_eq_true,
      if_false]
  · have hrem : F.fmod (F.div (F.fin ((453 : ℚ) / 100)) (F.fin (1 / 100)))
        (F.fin 1) = F.fin (453 - ((453 : ℤ) : ℚ)) := by
      rw [div_fin _ _ (by norm_num : ((1 : ℚ) / 100) ≠ 0),
        show (453 : ℚ) / 100 / (1 / 100) = 453 by norm_num, fmod_one_fin,
        ratTrunc_eq_of_nonneg (453 : ℚ) 453 (by norm_num) (by norm_num)
          (by norm_num)]
    simp only [Validator.is_valid, Number.as_f64, hrem, lt_fin, sub_fin]
    norm_num [EPSILON]

/-- C3 counterexample: with divisor 0.5 (which selects the float variant)
and the instance 1/2 − 2^-54 (the f64 just below one half), the quotient is
1 − 2^-53 and the remainder 1 − 2^-53 lies strictly above 1 − EPSILON, so
the rule stated by the claim accepts, but the compiled validator rejects:
its condition is a conjunction, not the claimed disjunction. -/
theorem multipleOf_float_tail_counterexample :
    multiple_of.compile (.num (.float (1 / 2))) []
      = some (.ok (.MultipleOfFloatValidator (F.fin (1 / 2)) []))
    ∧ specFloatMultipleAccepts (F.fin (1 / 2))
        (.num (.float (1 / 2 - 1 / 2 ^ 54))) = true
    ∧ (Validator.MultipleOfFloatValidator (F.fin (1 / 2)) []).is_valid
        (.num (.float (1 / 2 - 1 / 2 ^ 54))) = false := by
  have hcond : F.beq (F.fract (F.fin ((1 : ℚ) / 2))) (F.fin 0) = false := by
    rw [fract_fin,
      ratTrunc_eq_of_nonneg ((1 : ℚ) / 2) 0 (by norm_num) (by norm_num)
        (by norm_num), beq_fin]
    norm_num
  have hrem : F.fmod
      (F.div (F.fin ((1 : ℚ) / 2 - 1 / 2 ^ 54)) (F.fin (1 / 2))) (F.fin 1)
      = F.fin (1 - 1 / 2 ^ 53 - ((0 : ℤ) : ℚ)) := by
    rw [div_fin _ _ (by norm_num : ((1 : ℚ) / 2) ≠ 0),
      show ((1 : ℚ) / 2 - 1 / 2 ^ 54) / (1 / 2) = 1 - 1 / 2 ^ 53 by
        rw [div_eq_iff (by norm_num : ((1 : ℚ) / 2) ≠ 0)]
        ring,
      fmod_one_fin,
      ratTrunc_eq_of_nonneg ((1 : ℚ) - 1 / 2 ^ 53) 0 (by norm_num)
        (by norm_num) (by norm_num)]
  refine ⟨?_, ?_, ?_⟩
  · simp only [multiple_of.compile, Number.as_f64, hcond, Bool.false_eq_true,
      if_false]
  · simp only [specFloatMultipleAccepts, Number.as_f64, hrem, lt_fin, sub_fin]
    norm_num [EPSILON]
  · simp only [Validator.is_valid, Number.as_f64, hrem, lt_fin, sub_fin]
    norm_num [EPSILON]

/-- C4: the integer-divisor multipleOf validator accepts an integral numeric
instance exactly when its exact remainder against the divisor is zero, falls
back to the float variant's very test for a non-integral numeric instance,
and passes every non-numeric instance; divisor 3 selects this variant and
rejects 4.5, divisor 1 selects it and accepts 4. -/
theorem multipleOf_integer_verdict :
    (∀ (multiple_of : F) (path : List String) (inst : Json),
      (Validator.MultipleOfIntegerValidator multiple_of path).is_valid inst
        = match inst with
          | .num item0 =>
            if F.beq (F.fract item0.as_f64) (F.fin 0) then
              F.beq (F.fmod item0.as_f64 multiple_of) (F.fin 0)
            else
              (Validator.MultipleOfFloatValidator multiple_of path).is_valid
                (.num item0)
          | _ => true) ∧
    multiple_of.compile (.num (.posInt 3)) []
      = some (.ok (.MultipleOfIntegerValidator (F.fin 3) [])) ∧
    (Validator.MultipleOfIntegerValidator (F.fin 3) []).is_valid
      (.num (.float (9 / 2))) = false ∧
    multiple_of.compile (.num (.posInt 1)) []
      = some (.ok (.MultipleOfIntegerValidator (F.fin 1) [])) ∧
    (Validator.MultipleOfIntegerValidator (F.fin 1) []).is_valid
      (.num (.posInt 4)) = true := by
  refine ⟨?_, ?_, ?_, ?_, ?_⟩
  · intro multiple_of path inst
    cases inst <;> rfl
  · have hcond : F.beq (F.fract (Number.as_f64 (.posInt 3))) (F.fin 0)
        = true := by
      show F.beq (F.fract (F.fin ((3 : ℕ) : ℚ))) (F.fin 0) = true
      rw [fract_fin_natCast, beq_fin]
      norm_num
    simp only [multiple_of.compile, hcond, if_true]
    simp [Number.as_f64]
  · have hcond : F.beq (F.fract (F.fin ((9 : ℚ) / 2))) (F.fin 0) = false := by
      rw [fract_fin,
        ratTrunc_eq_of_nonneg ((9 : ℚ) / 2) 4 (by norm_num) (by norm_num)
          (by norm_num), beq_fin]
      norm_num
    have hrem : F.fmod (F.div (F.fin ((9 : ℚ) / 2)) (F.fin 3)) (F.fin 1)
        = F.fin (3 / 2 - ((1 : ℤ) : ℚ)) := by
      rw [div_fin _ _ (by norm_num : (3 : ℚ) ≠ 0),
        show (9 : ℚ) / 2 / 3 = 3 / 2 by norm_num, fmod_one_fin,
        ratTrunc_eq_of_nonneg ((3 : ℚ) / 2) 1 (by norm_num) (by norm_num)
          (by norm_num)]
    simp only [Validator.is_valid, Number.as_f64, hcond, Bool.false_eq_true,
      if_false, hrem, lt_fin, sub_fin]
    norm_num [EPSILON]
  · have hcond : F.beq (F.fract (Number.as_f64 (.posInt 1))) (F.fin 0)
        = true := by
      show F.beq (F.fract (F.fin ((1 : ℕ) : ℚ))) (F.fin 0) = true
      rw [fract_fin_natCast, beq_fin]
      norm_num
    simp only [multiple_of.compile, hcond, if_true]
    simp [Number.as_f64]
  · have hcond : F.beq (F.fract (Number.as_f64 (.posInt 4))) (F.fin 0)
        = true := by
      show F.beq (F.fract (F.fin ((4 : ℕ) : ℚ))) (F.fin 0) = true
      rw [fract_fin_natCast, beq_fin]
      norm_num
    have hrem : F.fmod (Number.as_f64 (.posInt 4)) (F.fin 1) = F.fin 0 := by
      show F.fmod (F.fin ((4 : ℕ) : ℚ)) (F.fin 1) = F.fin 0
      rw [fmod_one_fin, ratTrunc_natCast]
      congr 1
      push_cast
      ring
    simp only [Validator.is_valid, hcond, if_true, hrem, beq_fin]
    norm_num

lemma compile_types_built (items : List Json) (acc : PrimitiveTypesBitMap) :
    typesBuilt (MultipleTypesValidator.compile_types items acc)
      = items.all known_type_name := by
  induction items generalizing acc with
  | nil => rfl
  | cons item rest ih =>
    cases item with
    | str s =>
      cases hts : PrimitiveType.tryFrom s with
      | some t =>
        rw [show MultipleTypesValidator.compile_types (Json.str s :: rest) acc
            = MultipleTypesValidator.compile_types rest (acc.or t) by
          simp [MultipleTypesValidator.compile_types, hts]]
        rw [ih]
        simp [known_type_name, hts]
      | none =>
        simp [MultipleTypesValidator.compile_types, hts, known_type_name,
          typesBuilt]
    | null =>
      simp [MultipleTypesValidator.compile_types, known_type_name, typesBuilt]
    | bool b =>
      simp [MultipleTypesValidator.compile_types, known_type_name, typesBuilt]
    | num n =>
      simp [MultipleTypesValidator.compile_types, known_type_name, typesBuilt]
    | arr xs =>
      simp [MultipleTypesValidator.compile_types, known_type_name, typesBuilt]
    | obj es =>
      simp [MultipleTypesValidator.compile_types, known_type_name, typesBuilt]

lemma multipleTypes_compile_succeeded (items : List Json)
    (path : List String) :
    compilationSucceeded (some (MultipleTypesValidator.compile items path))
      = items.all known_type_name := by
  rw [← compile_types_built items PrimitiveTypesBitMap.new]
  cases h : MultipleTypesValidator.compile_types items
      PrimitiveTypesBitMap.new <;>
    simp [MultipleTypesValidator.compile, h, compilationSucceeded, typesBuilt]

lemma single_type_succeeded (s : String) (path : List String) :
    compilationSucceeded (type_.compile_single_type s path)
      = (PrimitiveType.tryFrom s).isSome := by
  cases hts : PrimitiveType.tryFrom s with
  | some t =>
    cases t <;> simp [type_.compile_single_type, hts, compilationSucceeded]
  | none => simp [type_.compile_single_type, hts, compilationSucceeded]

lemma multipleOf_compile_succeeded (j : Json) (path : List String) :
    compilationSucceeded (multiple_of.compile j path) = j.is_number := by
  cases j with
  | num n =>
    cases hb : F.beq (F.fract n.as_f64) (F.fin 0) <;>
      simp [multiple_of.compile, hb, compilationSucceeded, Json.is_number]
  | null => rfl
  | bool b => rfl
  | str s => rfl
  | arr items => rfl
  | obj entries => rfl

/-- C8: compilation fails with a schema error exactly for malformed keyword
values: a bare type name compiles exactly when it is one of the seven known
names, a type array compiles exactly when every entry is a string naming a
known type (so the array holding the name string and the number 5 fails), a
multipleOf value compiles exactly when it is a JSON number (so the string x
fails), and a maxProperties value compiles exactly when it is representable
as an unsigned native integer (so -1 and 1.5 fail). -/
theorem schema_error_exactly :
    (∀ (s : String) (path : List String),
      compilationSucceeded (type_.compile (.str s) path)
        = (PrimitiveType.tryFrom s).isSome) ∧
    (∀ (items : List Json) (path : List String),
      compilationSucceeded (type_.compile (.arr items) path)
        = items.all known_type_name) ∧
    type_.compile (.arr [.str "string", .num (.posInt 5)]) []
      = some (.error .SchemaError) ∧
    (∀ (j : Json) (path : List String),
      compilationSucceeded (multiple_of.compile j path) = j.is_number) ∧
    multiple_of.compile (.str "x") [] = some (.error .SchemaError) ∧
    (∀ (j : Json) (path : List String),
      compilationSucceeded (max_properties.compile j path)
        = j.as_u64.isSome) ∧
    max_properties.compile (.num (.negInt (-1))) []
      = some (.error .SchemaError) ∧
    max_properties.compile (.num (.float (3 / 2))) []
      = some (.error .SchemaError) := by
  refine ⟨?_, ?_, rfl, multipleOf_compile_succeeded, rfl, ?_, rfl, rfl⟩
  · intro s path
    exact single_type_succeeded s path
  · intro items path
    cases items with
    | nil => rfl
    | cons a rest =>
      cases rest with
      | nil =>
        cases a with
        | str s =>
          have h := single_type_succeeded s path
          simpa [type_.compile, known_type_name] using h
        | null => rfl
        | bool b => rfl
        | num n => rfl
        | arr xs => rfl
        | obj es => rfl
      | cons b rest2 =>
        have hlen : ¬(a :: b :: rest2).length = 1 := by simp
        rw [show type_.compile (.arr (a :: b :: rest2)) path
            = some (MultipleTypesValidator.compile (a :: b :: rest2) path) by
          simp [type_.compile, hlen]]
        exact multipleTypes_compile_succeeded _ _
  · intro j path
    cases j with
    | num n => cases n <;> rfl
    | null => rfl
    | bool b => rfl
    | str s => rfl
    | arr items => rfl
    | obj entries => rfl

/-- C10: the multipleOf compiler never checks that the divisor is positive —
it succeeds for every JSON number, zero and negatives included, and rejects
exactly the non-number schema values; with divisor 0 the integer-divisor
variant is selected, and that compiled validator rejects every numeric
instance (the remainder computations produce NaN, which fails every
comparison) while accepting every non-numeric instance. -/
theorem multipleOf_zero_divisor :
    (∀ (n : Number) (path : List String),
      compilationSucceeded (multiple_of.compile (.num n) path) = true) ∧
    compilationSucceeded (multiple_of.compile (.num (.negInt (-2))) [])
      = true ∧
    (∀ (j : Json) (path : List String),
      compilationSucceeded (multiple_of.compile j path) = j.is_number) ∧
    multiple_of.compile (.num (.posInt 0)) []
      = some (.ok (.MultipleOfIntegerValidator (F.fin 0) [])) ∧
    (∀ (j : Json) (path : List String),
      (Validator.MultipleOfIntegerValidator (F.fin 0) path).is_valid j
        = !j.is_number) := by
  have h1 : ∀ (n : Number) (path : List String),
      compilationSucceeded (multiple_of.compile (.num n) path) = true := by
    intro n path
    cases hb : F.beq (F.fract n.as_f64) (F.fin 0) <;>
      simp [multiple_of.compile, hb, compilationSucceeded]
  refine ⟨h1, h1 _ _, multipleOf_compile_succeeded, ?_, ?_⟩
  · have hcond : F.beq (F.fract (Number.as_f64 (.posInt 0))) (F.fin 0)
        = true := by
      show F.beq (F.fract (F.fin ((0 : ℕ) : ℚ))) (F.fin 0) = true
      rw [fract_fin_natCast, beq_fin]
      norm_num
    simp only [multiple_of.compile, hcond, if_true]
    simp [Number.as_f64]
  · intro j path
    cases j with
    | num x =>
      cases x with
      | posInt n =>
        have hcond : F.beq (F.fract (F.fin ((n : ℕ) : ℚ))) (F.fin 0)
            = true := by
          rw [fract_fin_natCast, beq_fin]
          norm_num
        simp [Validator.is_valid, Number.as_f64, hcond, fmod_zero_fin,
          beq_nan_left, Json.is_number]
      | negInt z =>
        have hcond : F.beq (F.fract (F.fin ((z : ℤ) : ℚ))) (F.fin 0)
            = true := by
          rw [fract_fin_intCast, beq_fin]
          norm_num
        simp [Validator.is_valid, Number.as_f64, hcond, fmod_zero_fin,
          beq_nan_left, Json.is_number]
      | float q =>
        cases hb : F.beq (F.fract (F.fin q)) (F.fin 0) with
        | true =>
          simp [Validator.is_valid, Number.as_f64, hb, fmod_zero_fin,
            beq_nan_left, Json.is_number]
        | false =>
          simp only [Validator.is_valid, Number.as_f64, hb,
            Bool.false_eq_true, if_false, div_zero_fin, Json.is_number]
          by_cases hq : q = 0
          · simp [hq, fmod_nan_left, lt_nan_left]
          · by_cases hpos : 0 < q
            · simp [hq, hpos, fmod_pinf_left, lt_nan_left]
            · simp [hq, hpos, fmod_ninf_left, lt_nan_left]
    | null => rfl
    | bool b => rfl
    | str s => rfl
    | arr items => rfl
    | obj entries => rfl

end JsonSchema
